import Mathlib

/-!
Shallow embedding of the swapchain back-buffer acquisition and presentation
engine of `vk_video_decoder/libs/VkShell/Shell.cpp` (airlied/vk_video_samples).

Vulkan handles (semaphores, fences, swapchains, surfaces, devices) are modelled
as `Nat` identifiers; a nullable handle is `Option Nat`.  An `AcquireBuffer`
(acquire token: one semaphore + one fence pair) is identified by a `Nat` token
id; the sync-primitive handles themselves carry no data relevant to the
control flow, so a token is just its id.  GPU-side calls
(`vkAcquireNextImageKHR`, `vkQueuePresentKHR`) are modelled by passing their
result codes and the returned image index as explicit inputs.  Fatal paths
(`vk::assert_success`, failed `assert`) are modelled with `Except`.
-/

/-- Lifecycle state of a `BackBuffer` (`BACK_BUFFER_INIT` is the constructor
default in `Shell.cpp:96`; the remaining states come from the lifecycle
described in the spec: ACQUIRED is the prepare state, IN_SWAPCHAIN after a
successful present, CANCELED after an out-of-date present). -/
inductive BackBufferState
  | bbInit
  | bbAcquired
  | bbInSwapchain
  | bbCanceled
deriving DecidableEq, Repr

/-- `Shell::BackBuffer`: image index, borrowed acquire token (nullable pointer
in the source, modelled by `Option` of a token id), and lifecycle state.  The
render (present-ready) semaphore handle and device handle carry no control
flow and are not tracked. -/
structure BackBuffer where
  imageIndex : Nat := 0
  acquireBuffer : Option Nat := none
  state : BackBufferState := .bbInit
deriving DecidableEq, Repr

/-- Modelled from the spec: `BackBuffer::SetAcquireBuffer` (declared in
`Shell.h`, which is not part of the examined sources) — swaps in the token as
the entry's current AcquireToken, records the returned image index, enters the
prepare (ACQUIRED) state, and returns whatever token was previously attached
so the caller can return it to the pool. -/
def BackBuffer.setAcquireBuffer (b : BackBuffer) (imageIndex : Nat) (tok : Nat) :
    BackBuffer × Option Nat :=
  ({ imageIndex := imageIndex, acquireBuffer := some tok, state := .bbAcquired },
   b.acquireBuffer)

/-- Modelled from the spec: `BackBuffer::isInPrepareState` (`Shell.h`) — the
prepare state is the lifecycle state between successful acquisition and
successful submission for display, i.e. ACQUIRED. -/
def BackBuffer.isInPrepareState (b : BackBuffer) : Bool :=
  b.state == .bbAcquired

/-- Modelled from the spec: `BackBuffer::setBufferInSwapchain` (`Shell.h`) —
transition to IN_SWAPCHAIN after a successful present. -/
def BackBuffer.setBufferInSwapchain (b : BackBuffer) : BackBuffer :=
  { b with state := .bbInSwapchain }

/-- Modelled from the spec: `BackBuffer::setBufferCanceled` (`Shell.h`) —
transition to CANCELED when the present reported an out-of-date surface. -/
def BackBuffer.setBufferCanceled (b : BackBuffer) : BackBuffer :=
  { b with state := .bbCanceled }

/-- Modelled from the spec: `BackBuffer::GetAcquireSemaphore` (`Shell.h`)
returns the attached token's semaphore, or `VK_NULL_HANDLE` when no token is
attached; semaphores of created tokens are non-null, so the null test used at
`Shell.cpp:619` is exactly "no token attached". -/
def BackBuffer.hasAcquireSemaphore (b : BackBuffer) : Bool :=
  b.acquireBuffer.isSome

/-- Modelled from the spec: the configuration options consumed by this engine
(`Settings` is declared outside the examined sources): back-buffer count,
vsync preference and headless/no-present mode. -/
structure Settings where
  back_buffer_count : Nat
  no_present : Bool
  vsync : Bool
deriving DecidableEq, Repr

/-- Present-mode enumeration (`VkPresentModeKHR` values used by
`Shell::resize_swapchain`). -/
inductive PresentMode
  | immediate
  | mailbox
  | fifo
  | fifoRelaxed
deriving DecidableEq, Repr

/-- Result of `vkAcquireNextImageKHR`, as far as the control flow of
`Shell::acquire_back_buffer` can distinguish it. -/
inductive AcqResult
  | success
  | errorOutOfDate
  | otherError
deriving DecidableEq, Repr

/-- Result of `vkQueuePresentKHR`, as far as the control flow of
`Shell::present_back_buffer` can distinguish it: the code only tests for
`VK_ERROR_OUT_OF_DATE_KHR`. -/
inductive PresResult
  | success
  | errorOutOfDate
  | otherResult
deriving DecidableEq, Repr

/-- A fatal termination: a failed `assert`, or `vk::assert_success` applied to
a non-success result (modelled from the spec: all errors other than the one
the engine recovers from "propagate to the process boundary as fatal
termination"). -/
inductive Fatal
  | assertFailed
  | assertSuccessFailed
deriving DecidableEq, Repr

/-- Observable lifecycle events emitted by the teardown / rebuild paths:
device wait-idle, consumer detach (swapchain-level `detach_swapchain` and
shell-level `detach_shell`), destruction of the swapchain handle, destruction
of the surface (recording the surface handle passed), device destruction,
creation of a swapchain, and consumer re-attach. -/
inductive Ev
  | deviceWaitIdle
  | detachSwapchain
  | destroySwapchainHandle
  | destroySurface (surface : Option Nat)
  | detachShell
  | destroyDevice
  | createSwapchainHandle
  | attachSwapchain
deriving DecidableEq, Repr

/-- `Shell::Context` (the fields driving the control flow of the examined
functions): the back-buffer registry, the FIFO of available acquire tokens
(head = `std::queue::front`), the current back-buffer index, the acquired
frame counter, the device / swapchain / surface handles, the current extent,
and the queue families plus the parameters of the most recently created
swapchain. -/
structure Context where
  backBuffers : List BackBuffer := []
  acquireBuffers : List Nat := []
  currentBackBuffer : Nat := 0
  acquiredFrameId : Nat := 0
  dev : Option Nat := none
  swapchain : Option Nat := none
  surface : Option Nat := none
  extent : Nat × Nat := (0, 0)
  frameProcessorQueueFamily : Nat := 0
  presentQueueFamily : Nat := 0
  imageCount : Nat := 0
  presentMode : PresentMode := .fifo
  sharingConcurrent : Bool := false
deriving DecidableEq, Repr

/-- `(uint32_t)-1`, the sentinel for an unknown / undefined extent. -/
def uint32Max : Nat := 4294967295

/-- `Shell::create_back_buffers` (`Shell.cpp:445`): the registry gets
`count = back_buffer_count + 1` default-constructed entries (the vector is
empty when `create_context` calls this), the pool gets `count + 1` freshly
created acquire tokens pushed in order (the queue is empty at this point;
fresh tokens are modelled by ids `0 .. count`), and the current index is
reset to 0. -/
def create_back_buffers (s : Settings) (c : Context) : Context :=
  let count := s.back_buffer_count + 1
  { c with
    backBuffers := List.replicate count {},
    acquireBuffers := List.range (count + 1),
    currentBackBuffer := 0 }

/-- `Shell::destroy_back_buffers` (`Shell.cpp:467`): clears the registry,
drains and deletes every pooled token, and resets the current index. -/
def destroy_back_buffers (c : Context) : Context :=
  { c with backBuffers := [], acquireBuffers := [], currentBackBuffer := 0 }

/-- `Shell::create_swapchain` (`Shell.cpp:480`): binds the surface and defers
image-chain creation to `resize_swapchain` by nulling the swapchain handle and
setting the extent to the `(uint32_t)-1` sentinel.  (Surface-format selection
carries no control flow for the examined claims and is not tracked.) -/
def create_swapchain (surface : Nat) (c : Context) : Context :=
  { c with
    surface := some surface,
    swapchain := none,
    extent := (uint32Max, uint32Max) }

/-- `Shell::destroy_swapchain` (`Shell.cpp:505`): if a swapchain exists,
detach the consumer and destroy the chain; then destroy the surface
(`vkDestroySurfaceKHR` is invoked unconditionally, on whatever handle the
context holds, and the surface handle is nulled). -/
def destroy_swapchain (c : Context) : Context × List Ev :=
  let step :=
    if c.swapchain.isSome then
      ({ c with swapchain := none }, [Ev.detachSwapchain, Ev.destroySwapchainHandle])
    else (c, ([] : List Ev))
  ({ step.1 with surface := none }, step.2 ++ [Ev.destroySurface step.1.surface])

/-- `Shell::destroy_context` (`Shell.cpp:384`): no-op on a null device;
otherwise wait for the device to idle, destroy the swapchain (which detaches
the swapchain consumer), detach the shell consumer, destroy the back buffers,
and destroy the device. -/
def destroy_context (c : Context) : Context × List Ev :=
  if c.dev.isNone then (c, [])
  else
    let dsw := destroy_swapchain c
    let c₂ := destroy_back_buffers dsw.1
    ({ c₂ with dev := none },
     Ev.deviceWaitIdle :: dsw.2 ++ [Ev.detachShell, Ev.destroyDevice])

/-- The extent computation of `Shell::resize_swapchain` (`Shell.cpp:521`):
start from the platform's current extent, substitute the caller's hints when
the platform reports the undefined-width sentinel, then clamp each component
into the `[minImageExtent, maxImageExtent]` range. -/
structure SurfaceCaps where
  currentExtentW : Nat
  currentExtentH : Nat
  minImageExtentW : Nat
  minImageExtentH : Nat
  maxImageExtentW : Nat
  maxImageExtentH : Nat
  minImageCount : Nat
  maxImageCount : Nat
deriving DecidableEq, Repr

/-- Extent computation of `Shell::resize_swapchain` (`Shell.cpp:521-536`),
verbatim: hint substitution on the width sentinel, then the two clamp
if-chains. -/
def computeExtent (caps : SurfaceCaps) (width_hint height_hint : Nat) : Nat × Nat :=
  let e :=
    if caps.currentExtentW = uint32Max then (width_hint, height_hint)
    else (caps.currentExtentW, caps.currentExtentH)
  let w :=
    if e.1 < caps.minImageExtentW then caps.minImageExtentW
    else if e.1 > caps.maxImageExtentW then caps.maxImageExtentW
    else e.1
  let h :=
    if e.2 < caps.minImageExtentH then caps.minImageExtentH
    else if e.2 > caps.maxImageExtentH then caps.maxImageExtentH
    else e.2
  (w, h)

/-- Present-mode selection of `Shell::resize_swapchain` (`Shell.cpp:556-563`):
the first enumerated mode that is MAILBOX under vsync or IMMEDIATE without
vsync; FIFO (the only universally supported mode) otherwise. -/
def choosePresentMode (vsync : Bool) (modes : List PresentMode) : PresentMode :=
  match modes.find? (fun m => (vsync && m == .mailbox) || (!vsync && m == .immediate)) with
  | some m => m
  | none => .fifo

/-- `Shell::resize_swapchain` (`Shell.cpp:517`): compute the new extent; if it
equals the current one, return without touching anything.  Otherwise clamp the
configured image count into the capability range, choose a present mode,
decide the sharing mode from the queue families, create the new swapchain
(the fresh handle is an explicit input) with the old chain as predecessor, and
if an old chain existed detach the consumer, wait for the device to idle and
destroy it; finally re-attach the consumer. -/
def resize_swapchain (s : Settings) (caps : SurfaceCaps) (modes : List PresentMode)
    (newSwapchain : Nat) (width_hint height_hint : Nat) (c : Context) :
    Context × List Ev :=
  let extent := computeExtent caps width_hint height_hint
  if c.extent = extent then (c, [])
  else
    let image_count :=
      if s.back_buffer_count < caps.minImageCount then caps.minImageCount
      else if s.back_buffer_count > caps.maxImageCount then caps.maxImageCount
      else s.back_buffer_count
    let mode := choosePresentMode s.vsync modes
    let concurrent := c.frameProcessorQueueFamily != c.presentQueueFamily
    let oldSwapchain := c.swapchain
    let c₁ := { c with
      swapchain := some newSwapchain,
      extent := extent,
      imageCount := image_count,
      presentMode := mode,
      sharingConcurrent := concurrent }
    let tearDown :=
      match oldSwapchain with
      | some _ => [Ev.detachSwapchain, Ev.deviceWaitIdle, Ev.destroySwapchainHandle]
      | none => []
    (c₁, Ev.createSwapchainHandle :: tearDown ++ [Ev.attachSwapchain])

/-- `Shell::acquire_back_buffer` (`Shell.cpp:617`): short-circuit when not
presenting and the current back buffer already holds a token; otherwise read
the pool head, run `vkAcquireNextImageKHR` under `vk::assert_success` (fatal
on any non-success result), assert the returned index is in range, record it
as current, attach the token via `SetAcquireBuffer`, pop the head, push the
displaced token (if any) to the tail, and bump the acquired-frame counter.
The acquisition result and returned image index are explicit inputs.  (The
fence wait/reset between acquisition and attachment is GPU-side
synchronization with no effect on the modelled state.) -/
def acquire_back_buffer (s : Settings) (res : AcqResult) (imageIndex : Nat)
    (c : Context) : Except Fatal Context :=
  match c.backBuffers[c.currentBackBuffer]? with
  | none => .error .assertFailed
  | some cur =>
    if s.no_present && cur.hasAcquireSemaphore then .ok c
    else
      match c.acquireBuffers with
      | [] => .error .assertFailed
      | acquireBuf :: rest =>
        if res = .success then
          if h : imageIndex < c.backBuffers.length then
            let p := (c.backBuffers[imageIndex]).setAcquireBuffer imageIndex acquireBuf
            .ok { c with
              currentBackBuffer := imageIndex,
              backBuffers := c.backBuffers.set imageIndex p.1,
              acquireBuffers := rest ++ p.2.toList,
              acquiredFrameId := c.acquiredFrameId + 1 }
          else .error .assertFailed
        else .error .assertSuccessFailed

/-- `Shell::fake_present` (`Shell.cpp:677`): assert the current back buffer is
in the prepare state and that no-present mode is active, then submit a no-op
GPU submission waiting on the render semaphore and signaling the acquire
semaphore.  The submission mutates no modelled state. -/
def fake_present (s : Settings) (c : Context) : Except Fatal Context :=
  match c.backBuffers[c.currentBackBuffer]? with
  | none => .error .assertFailed
  | some back =>
    if !back.isInPrepareState then .error .assertFailed
    else if !s.no_present then .error .assertFailed
    else .ok c

/-- `Shell::present_back_buffer` (`Shell.cpp:646`): assert the current back
buffer is in the prepare state, invoke the client frame callback (external,
no modelled state), take the fake-present path in no-present mode, and
otherwise submit the present request; on `VK_ERROR_OUT_OF_DATE_KHR` mark the
buffer CANCELED and return, otherwise mark it IN_SWAPCHAIN.  The present
result is an explicit input. -/
def present_back_buffer (s : Settings) (res : PresResult) (c : Context) :
    Except Fatal Context :=
  match c.backBuffers[c.currentBackBuffer]? with
  | none => .error .assertFailed
  | some back =>
    if !back.isInPrepareState then .error .assertFailed
    else if s.no_present then fake_present s c
    else if res = .errorOutOfDate then
      .ok { c with
        backBuffers := c.backBuffers.set c.currentBackBuffer back.setBufferCanceled }
    else
      .ok { c with
        backBuffers := c.backBuffers.set c.currentBackBuffer back.setBufferInSwapchain }

/-- The tokens currently borrowed by back buffers, in registry order. -/
def borrowedTokens (c : Context) : List Nat :=
  c.backBuffers.filterMap BackBuffer.acquireBuffer

/-- One acquire/present display cycle (`acquire_back_buffer` then
`present_back_buffer`), with the GPU-side results and returned image index as
explicit inputs. -/
def acquirePresentCycle (s : Settings) (ares : AcqResult) (imageIndex : Nat)
    (pres : PresResult) (c : Context) : Except Fatal Context :=
  match acquire_back_buffer s ares imageIndex c with
  | .error e => .error e
  | .ok c₁ => present_back_buffer s pres c₁

/-- A sequence of acquire/present cycles driven by a list of per-cycle
GPU-side inputs. -/
def runCycles (s : Settings) : List (AcqResult × Nat × PresResult) → Context →
    Except Fatal Context
  | [], c => .ok c
  | (r, i, p) :: rest, c =>
    match acquirePresentCycle s r i p c with
    | .error e => .error e
    | .ok c₁ => runCycles s rest c₁

/-- In an event trace, does the first occurrence of `a` come strictly before
the first occurrence of `b` (both must occur)? -/
def precedes (a b : Ev) (l : List Ev) : Bool :=
  match l.findIdx? (fun x => x == a), l.findIdx? (fun x => x == b) with
  | some i, some j => decide (i < j)
  | _, _ => false

/-! ### Concrete instances used by scenario theorems and witnesses -/

/-- A presenting (non-headless) configuration with two configured back
buffers. -/
def presentingSettings : Settings :=
  { back_buffer_count := 2, no_present := false, vsync := false }

/-- A headless (no-present) configuration with two configured back
buffers. -/
def noPresentSettings : Settings :=
  { back_buffer_count := 2, no_present := true, vsync := false }

/-- A back buffer in the prepare state holding acquire token 4. -/
def preparedBack : BackBuffer :=
  { imageIndex := 0, acquireBuffer := some 4, state := .bbAcquired }

/-- A one-entry registry whose current back buffer is `preparedBack`, with
tokens 1 and 2 pooled. -/
def preparedContext : Context :=
  { backBuffers := [preparedBack], acquireBuffers := [1, 2],
    currentBackBuffer := 0, dev := some 1 }

/-- The context produced by `create_back_buffers` from the presenting
configuration (3 registry entries, 4 pooled tokens). -/
def scenarioAContext : Context :=
  create_back_buffers presentingSettings { dev := some 1 }

/-- Five successful acquire/present cycles over round-robin image indices
0, 1, 2, 0, 1. -/
def scenarioAInputs : List (AcqResult × Nat × PresResult) :=
  [(.success, 0, .success), (.success, 1, .success), (.success, 2, .success),
   (.success, 0, .success), (.success, 1, .success)]

/-- A context with a live device, swapchain and surface, for exercising the
teardown paths. -/
def teardownContext : Context :=
  { backBuffers := [{}], acquireBuffers := [0], currentBackBuffer := 0,
    dev := some 1, swapchain := some 3, surface := some 7 }

/-- Surface capabilities reporting an undefined current extent with
`[min, max]` image-extent range `[(100,100), (1000,500)]`. -/
def undefinedExtentCaps : SurfaceCaps :=
  { currentExtentW := uint32Max, currentExtentH := uint32Max,
    minImageExtentW := 100, minImageExtentH := 100,
    maxImageExtentW := 1000, maxImageExtentH := 500,
    minImageCount := 2, maxImageCount := 8 }

/-- A two-entry registry whose first entry still borrows token 9 from a
previous cycle; tokens 4 and 5 are pooled. -/
def tokenDemoContext : Context :=
  { backBuffers :=
      [{ imageIndex := 0, acquireBuffer := some 9, state := .bbInSwapchain },
       { imageIndex := 0, acquireBuffer := none, state := .bbInit }],
    acquireBuffers := [4, 5], currentBackBuffer := 0, acquiredFrameId := 6,
    dev := some 1 }

/-- `tokenDemoContext` after one successful acquire of image index 0: token 4
moved from the pool head into entry 0, displaced token 9 appended to the pool
tail. -/
def tokenDemoAfterAcquire : Context :=
  { backBuffers :=
      [{ imageIndex := 0, acquireBuffer := some 4, state := .bbAcquired },
       { imageIndex := 0, acquireBuffer := none, state := .bbInit }],
    acquireBuffers := [5, 9], currentBackBuffer := 0, acquiredFrameId := 7,
    dev := some 1 }

/-- `tokenDemoAfterAcquire` after one successful present of the current
entry. -/
def tokenDemoAfterPresent : Context :=
  { backBuffers :=
      [{ imageIndex := 0, acquireBuffer := some 4, state := .bbInSwapchain },
       { imageIndex := 0, acquireBuffer := none, state := .bbInit }],
    acquireBuffers := [5, 9], currentBackBuffer := 0, acquiredFrameId := 7,
    dev := some 1 }

/-! ### Helper lemmas -/

/-- The if-chain clamp used by `resize_swapchain` agrees with the
mathematical clamp into `[lo, hi]` whenever `lo ≤ hi`. -/
theorem ifClamp_eq_max_min (lo hi w : Nat) (hab : lo ≤ hi) :
    (if w < lo then lo else if w > hi then hi else w) = max lo (min hi w) := by
  rcases Nat.lt_or_ge w lo with h1 | h1
  · rw [if_pos h1, Nat.min_eq_right (Nat.le_of_lt (Nat.lt_of_lt_of_le h1 hab)),
      Nat.max_eq_left (Nat.le_of_lt h1)]
  · rw [if_neg (Nat.not_lt.mpr h1)]
    rcases Nat.lt_or_ge hi w with h2 | h2
    · rw [if_pos h2, Nat.min_eq_left (Nat.le_of_lt h2), Nat.max_eq_right hab]
    · rw [if_neg (Nat.not_lt.mpr h2), Nat.min_eq_right h2, Nat.max_eq_right h1]

/-- `filterMap` over a cons, phrased through `Option.toList`. -/
theorem filterMap_cons_toList {α β : Type} (f : α → Option β) (y : α) (ys : List α) :
    List.filterMap f (y :: ys) = (f y).toList ++ ys.filterMap f := by
  cases hfy : f y <;> simp [List.filterMap_cons, hfy]

/-- Append juggling: `(A ++ B) ++ C` is a permutation of `(C ++ B) ++ A`. -/
theorem perm_append_rotate {γ : Type} (A B C : List γ) :
    ((A ++ B) ++ C).Perm ((C ++ B) ++ A) := by
  have h1 : ((A ++ B) ++ C).Perm (C ++ (A ++ B)) := List.perm_append_comm
  have h2 : ((C ++ A) ++ B).Perm (B ++ (C ++ A)) := List.perm_append_comm
  have h3 : ((B ++ C) ++ A).Perm ((C ++ B) ++ A) :=
    List.Perm.append_right A List.perm_append_comm
  rw [← List.append_assoc] at h1
  rw [← List.append_assoc] at h2
  exact (h1.trans h2).trans h3

/-- Replacing the element at position `i` permutes the `filterMap` image once
the old and new images of that element are exchanged. -/
theorem filterMap_set_perm {α β : Type} (f : α → Option β) :
    ∀ (l : List α) (i : Nat) (a : α) (h : i < l.length),
      ((l.set i a).filterMap f ++ (f l[i]).toList).Perm
        (l.filterMap f ++ (f a).toList)
  | [], i, a, h => absurd h (by simp)
  | x :: xs, 0, a, h => by
    simp only [List.set_cons_zero, List.getElem_cons_zero,
      filterMap_cons_toList]
    exact perm_append_rotate (f a).toList (xs.filterMap f) (f x).toList
  | x :: xs, i + 1, a, h => by
    have h' : i < xs.length := by
      simp only [List.length_cons] at h; omega
    have ih := filterMap_set_perm f xs i a h'
    simp only [List.set_cons_succ, List.getElem_cons_succ,
      filterMap_cons_toList, List.append_assoc]
    exact List.Perm.append_left (f x).toList ih

/-- Replacing the element at position `i` by one with the same `f`-image
leaves the `filterMap` image unchanged. -/
theorem filterMap_set_congr {α β : Type} (f : α → Option β) :
    ∀ (l : List α) (i : Nat) (a : α) (h : i < l.length),
      f a = f l[i] → (l.set i a).filterMap f = l.filterMap f
  | [], i, a, h, _ => absurd h (by simp)
  | x :: xs, 0, a, h, heq => by
    simp only [List.getElem_cons_zero] at heq
    simp only [List.set_cons_zero, filterMap_cons_toList, heq]
  | x :: xs, i + 1, a, h, heq => by
    have h' : i < xs.length := by
      simp only [List.length_cons] at h; omega
    simp only [List.getElem_cons_succ] at heq
    have ih := filterMap_set_congr f xs i a h' heq
    simp only [List.set_cons_succ, filterMap_cons_toList, ih]

/-- In every branch, the context returned by `resize_swapchain` carries
exactly the extent computed by `computeExtent` from the capabilities and the
hints of that call. -/
theorem resize_swapchain_extent (s : Settings) (caps : SurfaceCaps)
    (modes : List PresentMode) (newSwapchain width_hint height_hint : Nat)
    (c : Context) :
    (resize_swapchain s caps modes newSwapchain width_hint height_hint c).1.extent =
      computeExtent caps width_hint height_hint := by
  by_cases hc : c.extent = computeExtent caps width_hint height_hint
  · simp only [resize_swapchain, if_pos hc]
    exact hc
  · simp only [resize_swapchain, if_neg hc]

/-- Case analysis of a successful `acquire_back_buffer`: either the
no-present short-circuit fired and the context is unchanged, or the pool head
was attached to the indexed entry and the context was updated exactly as at
`Shell.cpp:637-643`. -/
theorem acquire_back_buffer_cases (s : Settings) (res : AcqResult)
    (imageIndex : Nat) (c c₁ : Context)
    (h : acquire_back_buffer s res imageIndex c = .ok c₁) :
    c₁ = c ∨
      ∃ tok rest, c.acquireBuffers = tok :: rest ∧
        ∃ hlt : imageIndex < c.backBuffers.length,
          c₁ = { c with
            currentBackBuffer := imageIndex,
            backBuffers := c.backBuffers.set imageIndex
              { imageIndex := imageIndex, acquireBuffer := some tok,
                state := .bbAcquired },
            acquireBuffers := rest ++ (c.backBuffers[imageIndex]).acquireBuffer.toList,
            acquiredFrameId := c.acquiredFrameId + 1 } := by
  simp only [acquire_back_buffer] at h
  split at h
  · exact Except.noConfusion h
  · split at h
    · cases h; exact Or.inl rfl
    · split at h
      · exact Except.noConfusion h
      · split at h
        · split at h
          · rename_i tok rest hpool hres hlt
            cases h
            exact Or.inr ⟨tok, rest, hpool, hlt, rfl⟩
          · exact Except.noConfusion h
        · exact Except.noConfusion h

/-- A successful `present_back_buffer` never touches the token pool or the
borrowed tokens: it only advances the lifecycle state of the current
entry (or, in no-present mode, nothing at all). -/
theorem present_preserves_tokens (s : Settings) (res : PresResult)
    (d d₁ : Context) (h : present_back_buffer s res d = .ok d₁) :
    d₁.acquireBuffers = d.acquireBuffers ∧ borrowedTokens d₁ = borrowedTokens d := by
  simp only [present_back_buffer] at h
  split at h
  · exact Except.noConfusion h
  · rename_i back hdcur
    obtain ⟨hlt, hback⟩ := List.getElem?_eq_some.mp hdcur
    split at h
    · exact Except.noConfusion h
    · split at h
      · -- no-present mode: fake_present
        simp only [fake_present] at h
        split at h
        · exact Except.noConfusion h
        · split at h
          · exact Except.noConfusion h
          · split at h
            · exact Except.noConfusion h
            · cases h; exact ⟨rfl, rfl⟩
      · split at h
        · cases h
          refine ⟨rfl, ?_⟩
          exact filterMap_set_congr BackBuffer.acquireBuffer d.backBuffers
            d.currentBackBuffer back.setBufferCanceled hlt (by rw [hback]; rfl)
        · cases h
          refine ⟨rfl, ?_⟩
          exact filterMap_set_congr BackBuffer.acquireBuffer d.backBuffers
            d.currentBackBuffer back.setBufferInSwapchain hlt (by rw [hback]; rfl)

/-! ### Claim theorems -/

/-- Claim C2: with presentation enabled and the current back buffer in the
prepare (ACQUIRED) state, `present_back_buffer` transitions it to CANCELED
exactly when the present call reports out-of-date — returning without ever
marking it IN_SWAPCHAIN — and to IN_SWAPCHAIN otherwise; the entry's image
index and borrowed token are untouched. -/
theorem present_back_buffer_state_transition (s : Settings) (res : PresResult)
    (c : Context) (back : BackBuffer)
    (hnp : s.no_present = false)
    (hcur : c.backBuffers[c.currentBackBuffer]? = some back)
    (hst : back.state = .bbAcquired) :
    ∃ upd,
      present_back_buffer s res c =
        .ok { c with backBuffers := c.backBuffers.set c.currentBackBuffer upd } ∧
      upd.state = (if res = .errorOutOfDate then .bbCanceled else .bbInSwapchain) ∧
      (res = .errorOutOfDate → upd.state ≠ .bbInSwapchain) ∧
      upd.imageIndex = back.imageIndex ∧
      upd.acquireBuffer = back.acquireBuffer := by
  have hprep : back.isInPrepareState = true := by
    simp [BackBuffer.isInPrepareState, hst]
  by_cases hres : res = .errorOutOfDate
  · refine ⟨back.setBufferCanceled, ?_, ?_, ?_, rfl, rfl⟩
    · simp [present_back_buffer, hcur, hprep, hnp, hres]
    · simp [BackBuffer.setBufferCanceled, hres]
    · intro _
      simp [BackBuffer.setBufferCanceled]
  · refine ⟨back.setBufferInSwapchain, ?_, ?_, ?_, rfl, rfl⟩
    · simp [present_back_buffer, hcur, hprep, hnp, hres]
    · simp [BackBuffer.setBufferInSwapchain, hres]
    · intro hcontra
      exact absurd hcontra hres

/-- Witness for claim C2's theorem at a concrete out-of-date present. -/
theorem present_back_buffer_state_transition_witness :
    ∃ upd,
      present_back_buffer presentingSettings .errorOutOfDate preparedContext =
        .ok { preparedContext with
          backBuffers :=
            preparedContext.backBuffers.set preparedContext.currentBackBuffer upd } ∧
      upd.state =
        (if PresResult.errorOutOfDate = PresResult.errorOutOfDate
         then BackBufferState.bbCanceled else BackBufferState.bbInSwapchain) ∧
      (PresResult.errorOutOfDate = PresResult.errorOutOfDate →
        upd.state ≠ .bbInSwapchain) ∧
      upd.imageIndex = preparedBack.imageIndex ∧
      upd.acquireBuffer = preparedBack.acquireBuffer :=
  present_back_buffer_state_transition presentingSettings .errorOutOfDate
    preparedContext preparedBack rfl rfl rfl

/-- Claim C10: in no-present mode, a present call on a back buffer in the
prepare state leaves the whole context unchanged — the buffer stays ACQUIRED
(never IN_SWAPCHAIN or CANCELED) and the token pool and current index are
untouched, whatever the would-be present result. -/
theorem present_back_buffer_no_present_unchanged (s : Settings) (res : PresResult)
    (c : Context) (back : BackBuffer)
    (hnp : s.no_present = true)
    (hcur : c.backBuffers[c.currentBackBuffer]? = some back)
    (hst : back.state = .bbAcquired) :
    present_back_buffer s res c = .ok c := by
  have hprep : back.isInPrepareState = true := by
    simp [BackBuffer.isInPrepareState, hst]
  simp [present_back_buffer, fake_present, hcur, hprep, hnp]

/-- Witness for claim C10's theorem at a concrete headless present. -/
theorem present_back_buffer_no_present_unchanged_witness :
    present_back_buffer noPresentSettings .errorOutOfDate preparedContext =
      .ok preparedContext :=
  present_back_buffer_no_present_unchanged noPresentSettings .errorOutOfDate
    preparedContext preparedBack rfl rfl rfl

/-- Claim C3 (amended): every non-success result of the next-image
acquisition — surface-out-of-date included — makes `acquire_back_buffer`
fail fatally through `vk::assert_success`; the out-of-date condition is not
forwarded to the swapchain lifecycle manager as a recoverable resize
trigger. -/
theorem acquire_back_buffer_failure_fatal (s : Settings) (res : AcqResult)
    (imageIndex : Nat) (c : Context) (cur : BackBuffer) (tok : Nat)
    (rest : List Nat)
    (hcur : c.backBuffers[c.currentBackBuffer]? = some cur)
    (hsc : (s.no_present && cur.hasAcquireSemaphore) = false)
    (hpool : c.acquireBuffers = tok :: rest)
    (hres : res ≠ .success) :
    acquire_back_buffer s res imageIndex c = .error .assertSuccessFailed := by
  simp [acquire_back_buffer, hcur, hsc, hpool, hres]

/-- Witness for claim C3's amended theorem at a concrete out-of-date
acquisition. -/
theorem acquire_back_buffer_failure_fatal_witness :
    acquire_back_buffer presentingSettings .errorOutOfDate 0 preparedContext =
      .error .assertSuccessFailed :=
  acquire_back_buffer_failure_fatal presentingSettings .errorOutOfDate 0
    preparedContext preparedBack 1 [2] rfl rfl rfl (by decide)

/-- Claim C3 counterexample: at a concrete freshly created context, an
out-of-date acquisition yields the fatal `assert_success` error — the very
same outcome as any other acquisition failure — instead of a recoverable
resize trigger. -/
theorem acquire_back_buffer_out_of_date_counterexample :
    acquire_back_buffer presentingSettings .errorOutOfDate 0 scenarioAContext =
      .error .assertSuccessFailed ∧
    acquire_back_buffer presentingSettings .otherError 0 scenarioAContext =
      .error .assertSuccessFailed :=
  ⟨rfl, rfl⟩

/-- Claim C6: in no-present mode, once the current back buffer holds an
acquire token every further `acquire_back_buffer` call short-circuits and
returns the context unchanged (no token checkout, no acquisition), and any
sequence of acquire/present cycles is the identity — so the reported current
image index never changes until explicitly invalidated. -/
theorem acquire_back_buffer_no_present_short_circuit (s : Settings) (c : Context)
    (cur : BackBuffer) (ares : AcqResult) (aidx : Nat)
    (inputs : List (AcqResult × Nat × PresResult))
    (hnp : s.no_present = true)
    (hcur : c.backBuffers[c.currentBackBuffer]? = some cur)
    (htok : cur.acquireBuffer.isSome = true)
    (hst : cur.state = .bbAcquired) :
    acquire_back_buffer s ares aidx c = .ok c ∧
    runCycles s inputs c = .ok c := by
  have hacq : ∀ r i, acquire_back_buffer s r i c = .ok c := fun r i => by
    simp [acquire_back_buffer, hcur, hnp, BackBuffer.hasAcquireSemaphore, htok]
  have hprep : cur.isInPrepareState = true := by
    simp [BackBuffer.isInPrepareState, hst]
  have hpres : ∀ p, present_back_buffer s p c = .ok c := fun p => by
    simp [present_back_buffer, fake_present, hcur, hprep, hnp]
  refine ⟨hacq ares aidx, ?_⟩
  induction inputs with
  | nil => rfl
  | cons hd tl ih =>
    obtain ⟨r, i, p⟩ := hd
    simpa [runCycles, acquirePresentCycle, hacq r i, hpres p] using ih

/-- Witness for claim C6's theorem at a concrete headless context, including
a cycle whose GPU-side inputs would otherwise be fatal. -/
theorem acquire_back_buffer_no_present_short_circuit_witness :
    acquire_back_buffer noPresentSettings .success 0 preparedContext =
      .ok preparedContext ∧
    runCycles noPresentSettings
      [(.success, 0, .success), (.otherError, 5, .errorOutOfDate)]
      preparedContext = .ok preparedContext :=
  acquire_back_buffer_no_present_short_circuit noPresentSettings preparedContext
    preparedBack .success 0
    [(.success, 0, .success), (.otherError, 5, .errorOutOfDate)] rfl rfl rfl rfl

/-- Under the undefined-extent sentinel, `computeExtent` is exactly the
componentwise clamp of the hints into the image-extent range. -/
theorem computeExtent_undefined (caps : SurfaceCaps) (w h : Nat)
    (hundef : caps.currentExtentW = uint32Max)
    (hw : caps.minImageExtentW ≤ caps.maxImageExtentW)
    (hh : caps.minImageExtentH ≤ caps.maxImageExtentH) :
    computeExtent caps w h =
      (max caps.minImageExtentW (min caps.maxImageExtentW w),
       max caps.minImageExtentH (min caps.maxImageExtentH h)) := by
  simp only [computeExtent, hundef]
  simp only [if_true]
  exact congrArg₂ Prod.mk (ifClamp_eq_max_min _ _ _ hw) (ifClamp_eq_max_min _ _ _ hh)

/-- Claim C7: whenever the platform reports an undefined current extent, the
extent of the context produced by `resize_swapchain` equals the caller's
width/height hints clamped componentwise into
`[minImageExtent, maxImageExtent]`. -/
theorem resize_swapchain_undefined_extent_clamps (s : Settings)
    (caps : SurfaceCaps) (modes : List PresentMode)
    (newSwapchain width_hint height_hint : Nat) (c : Context)
    (hundef : caps.currentExtentW = uint32Max)
    (hw : caps.minImageExtentW ≤ caps.maxImageExtentW)
    (hh : caps.minImageExtentH ≤ caps.maxImageExtentH) :
    (resize_swapchain s caps modes newSwapchain width_hint height_hint c).1.extent =
      (max caps.minImageExtentW (min caps.maxImageExtentW width_hint),
       max caps.minImageExtentH (min caps.maxImageExtentH height_hint)) := by
  rw [resize_swapchain_extent]
  exact computeExtent_undefined caps width_hint height_hint hundef hw hh

/-- Witness for claim C7's theorem: hint (800, 600) against an undefined
current extent with range `[(100,100), (1000,500)]`. -/
theorem resize_swapchain_undefined_extent_clamps_witness :
    (resize_swapchain presentingSettings undefinedExtentCaps [] 10 800 600
        teardownContext).1.extent =
      (max 100 (min 1000 800), max 100 (min 500 600)) :=
  resize_swapchain_undefined_extent_clamps presentingSettings undefinedExtentCaps
    [] 10 800 600 teardownContext rfl (by decide) (by decide)

/-- Claim C8: when a second `resize_swapchain` call's hints resolve to the
same clamped extent as the first call's, the second call performs no chain
rebuild: it returns the context completely unchanged and emits no lifecycle
events. -/
theorem resize_swapchain_noop_second (s₁ s₂ : Settings) (caps₁ caps₂ : SurfaceCaps)
    (m₁ m₂ : List PresentMode) (n₁ n₂ w₁ h₁ w₂ h₂ : Nat) (c : Context)
    (hsame : computeExtent caps₂ w₂ h₂ = computeExtent caps₁ w₁ h₁) :
    resize_swapchain s₂ caps₂ m₂ n₂ w₂ h₂
        (resize_swapchain s₁ caps₁ m₁ n₁ w₁ h₁ c).1 =
      ((resize_swapchain s₁ caps₁ m₁ n₁ w₁ h₁ c).1, []) := by
  have hext := resize_swapchain_extent s₁ caps₁ m₁ n₁ w₁ h₁ c
  revert hext
  generalize (resize_swapchain s₁ caps₁ m₁ n₁ w₁ h₁ c).1 = c₁
  intro hext
  have hcond : c₁.extent = computeExtent caps₂ w₂ h₂ := by rw [hext, hsame]
  simp only [resize_swapchain, if_pos hcond]

/-- Witness for claim C8's theorem: two resizes with identical hints and
capabilities; the second is the identity with an empty event trace. -/
theorem resize_swapchain_noop_second_witness :
    resize_swapchain presentingSettings undefinedExtentCaps [] 11 800 600
        (resize_swapchain presentingSettings undefinedExtentCaps [] 10 800 600
          teardownContext).1 =
      ((resize_swapchain presentingSettings undefinedExtentCaps [] 10 800 600
          teardownContext).1, []) :=
  resize_swapchain_noop_second presentingSettings presentingSettings
    undefinedExtentCaps undefinedExtentCaps [] [] 10 11 800 600 800 600
    teardownContext rfl

/-- Claim C9: `destroy_swapchain` is idempotent — a second consecutive call
changes no state and does not fault: the consumer detach and chain
destruction are skipped (the handle is already null) and the surface
destruction acts on the already-null surface handle. -/
theorem destroy_swapchain_idempotent (c : Context) :
    (destroy_swapchain (destroy_swapchain c).1).1 = (destroy_swapchain c).1 ∧
    (destroy_swapchain (destroy_swapchain c).1).2 = [Ev.destroySurface none] := by
  cases hsw : c.swapchain <;> simp [destroy_swapchain, hsw]

/-- Claim C5 (amended): in context destruction the event order is device
wait-idle, then consumer (swapchain) detach, then swapchain destroy, then
surface destroy, then shell detach, then device destroy; in a
resize-triggered rebuild the order is new-chain creation, then consumer
detach, then device wait-idle, then old-chain destroy, then consumer
re-attach.  The consumer detach precedes the device wait-idle only on the
resize path; context destruction waits for the device first. -/
theorem teardown_event_order (c c₂ : Context) (dv sw sw₂ : Nat)
    (s : Settings) (caps : SurfaceCaps) (modes : List PresentMode)
    (newSwapchain width_hint height_hint : Nat)
    (hdev : c.dev = some dv) (hsw : c.swapchain = some sw)
    (hsw₂ : c₂.swapchain = some sw₂)
    (hrebuild : c₂.extent ≠ computeExtent caps width_hint height_hint) :
    (destroy_context c).2 =
      [Ev.deviceWaitIdle, Ev.detachSwapchain, Ev.destroySwapchainHandle,
       Ev.destroySurface c.surface, Ev.detachShell, Ev.destroyDevice] ∧
    (resize_swapchain s caps modes newSwapchain width_hint height_hint c₂).2 =
      [Ev.createSwapchainHandle, Ev.detachSwapchain, Ev.deviceWaitIdle,
       Ev.destroySwapchainHandle, Ev.attachSwapchain] := by
  constructor
  · simp [destroy_context, destroy_swapchain, hdev, hsw]
  · simp [resize_swapchain, if_neg hrebuild, hsw₂]

/-- Witness for claim C5's amended theorem on a live context with device,
swapchain and surface handles. -/
theorem teardown_event_order_witness :
    (destroy_context teardownContext).2 =
      [Ev.deviceWaitIdle, Ev.detachSwapchain, Ev.destroySwapchainHandle,
       Ev.destroySurface (some 7), Ev.detachShell, Ev.destroyDevice] ∧
    (resize_swapchain presentingSettings undefinedExtentCaps [] 12 800 600
        teardownContext).2 =
      [Ev.createSwapchainHandle, Ev.detachSwapchain, Ev.deviceWaitIdle,
       Ev.destroySwapchainHandle, Ev.attachSwapchain] :=
  teardown_event_order teardownContext teardownContext 1 3 3 presentingSettings
    undefinedExtentCaps [] 12 800 600 rfl rfl rfl (by decide)

/-- Claim C5 counterexample: on a concrete live context, `destroy_context`
issues the device wait-idle before any consumer detach (swapchain-level or
shell-level), so the claimed consumer-detach-before-wait-idle order fails on
the context-destruction teardown path. -/
theorem destroy_context_wait_before_detach_counterexample :
    (destroy_context teardownContext).2 =
      [Ev.deviceWaitIdle, Ev.detachSwapchain, Ev.destroySwapchainHandle,
       Ev.destroySurface (some 7), Ev.detachShell, Ev.destroyDevice] ∧
    precedes Ev.detachSwapchain Ev.deviceWaitIdle
      (destroy_context teardownContext).2 = false ∧
    precedes Ev.detachShell Ev.deviceWaitIdle
      (destroy_context teardownContext).2 = false :=
  ⟨rfl, rfl, rfl⟩

/-- Claim C4 counterexample: with a configured back-buffer count of 2,
creation yields a registry of 3 entries but a pool of only 4 acquire tokens
(`count + 1 = back_buffer_count + 2`), not the claimed 5. -/
theorem scenarioA_pool_size_counterexample :
    scenarioAContext.backBuffers.length = 3 ∧
    scenarioAContext.acquireBuffers.length = 4 ∧
    ¬ scenarioAContext.acquireBuffers.length = 5 := by
  refine ⟨rfl, rfl, ?_⟩
  decide

/-- Claim C4 (amended): with a configured back-buffer count of 2, creation
yields 3 registry entries and 4 pooled tokens; after 5 successful
acquire/present cycles over round-robin image indices the pool holds 1
available token and the registry borrows 3, so available-plus-borrowed still
totals the original 4 — availability never returns to 5 (nor to 4) because
presented entries keep their token until displaced by a later acquire. -/
theorem scenarioA_amended_counts :
    scenarioAContext.backBuffers.length = 3 ∧
    scenarioAContext.acquireBuffers.length = 4 ∧
    (runCycles presentingSettings scenarioAInputs scenarioAContext).map
        (fun c => (c.acquireBuffers.length, (borrowedTokens c).length)) =
      .ok (1, 3) :=
  ⟨rfl, rfl, rfl⟩

/-- Claim C1: token conservation — a successful acquire permutes the combined
collection of pooled and borrowed tokens, so the available count plus the
borrowed count is constant and uniqueness of borrowing (no token in two
BackBuffers, nor both pooled and borrowed) is preserved; in the
non-short-circuit case the acquire removes exactly the head token from the
FIFO, attaches it to the indexed entry, and appends the displaced previous
token (if any) to the tail.  A successful present moves no tokens at all. -/
theorem acquire_back_buffer_token_conservation (s : Settings) (res : AcqResult)
    (imageIndex : Nat) (c c₁ d d₁ : Context) (pres : PresResult)
    (hacq : acquire_back_buffer s res imageIndex c = .ok c₁)
    (hpres : present_back_buffer s pres d = .ok d₁) :
    (c₁.acquireBuffers ++ borrowedTokens c₁).Perm
      (c.acquireBuffers ++ borrowedTokens c) ∧
    c₁.acquireBuffers.length + (borrowedTokens c₁).length =
      c.acquireBuffers.length + (borrowedTokens c).length ∧
    ((c.acquireBuffers ++ borrowedTokens c).Nodup →
      (c₁.acquireBuffers ++ borrowedTokens c₁).Nodup) ∧
    (c₁ = c ∨
      ∃ tok rest prev,
        c.acquireBuffers = tok :: rest ∧
        c.backBuffers[imageIndex]? = some prev ∧
        c₁.acquireBuffers = rest ++ prev.acquireBuffer.toList ∧
        c₁.backBuffers[imageIndex]? =
          some { imageIndex := imageIndex, acquireBuffer := some tok,
                 state := .bbAcquired }) ∧
    d₁.acquireBuffers = d.acquireBuffers ∧
    borrowedTokens d₁ = borrowedTokens d := by
  obtain ⟨hdp, hdb⟩ := present_preserves_tokens s pres d d₁ hpres
  rcases acquire_back_buffer_cases s res imageIndex c c₁ hacq with
    hceq | ⟨tok, rest, hpool, hlt, hc₁⟩
  · subst hceq
    exact ⟨List.Perm.refl _, rfl, id, Or.inl rfl, hdp, hdb⟩
  · have hperm : (c₁.acquireBuffers ++ borrowedTokens c₁).Perm
        (c.acquireBuffers ++ borrowedTokens c) := by
      subst hc₁
      simp only [borrowedTokens]
      rw [hpool]
      have hp := filterMap_set_perm BackBuffer.acquireBuffer c.backBuffers imageIndex
        { imageIndex := imageIndex, acquireBuffer := some tok, state := .bbAcquired }
        hlt
      have s1 := perm_append_rotate rest
        ((c.backBuffers[imageIndex]).acquireBuffer.toList)
        (List.filterMap BackBuffer.acquireBuffer (c.backBuffers.set imageIndex
          { imageIndex := imageIndex, acquireBuffer := some tok,
            state := .bbAcquired }))
      have s2 := hp.append_right rest
      have s3 := perm_append_rotate
        (List.filterMap BackBuffer.acquireBuffer c.backBuffers) [tok] rest
      have s4 := (List.perm_append_singleton tok rest).append_right
        (List.filterMap BackBuffer.acquireBuffer c.backBuffers)
      exact ((s1.trans s2).trans s3).trans s4
    have hlen := hperm.length_eq
    simp only [List.length_append] at hlen
    refine ⟨hperm, hlen, fun hnd => ?_, Or.inr ⟨tok, rest,
      c.backBuffers[imageIndex], hpool, List.getElem?_eq_getElem hlt, ?_, ?_⟩,
      hdp, hdb⟩
    · exact hperm.symm.nodup hnd
    · rw [hc₁]
    · rw [hc₁]
      simp [List.getElem?_set_self, hlt]

/-- Witness for claim C1's theorem: acquiring image 0 moves pool head 4 into
the registry and returns the displaced token 9 to the pool tail; the
subsequent present moves nothing. -/
theorem acquire_back_buffer_token_conservation_witness :
    (tokenDemoAfterAcquire.acquireBuffers ++
        borrowedTokens tokenDemoAfterAcquire).Perm
      (tokenDemoContext.acquireBuffers ++ borrowedTokens tokenDemoContext) ∧
    tokenDemoAfterAcquire.acquireBuffers.length +
        (borrowedTokens tokenDemoAfterAcquire).length =
      tokenDemoContext.acquireBuffers.length +
        (borrowedTokens tokenDemoContext).length ∧
    ((tokenDemoContext.acquireBuffers ++ borrowedTokens tokenDemoContext).Nodup →
      (tokenDemoAfterAcquire.acquireBuffers ++
        borrowedTokens tokenDemoAfterAcquire).Nodup) ∧
    (tokenDemoAfterAcquire = tokenDemoContext ∨
      ∃ tok rest prev,
        tokenDemoContext.acquireBuffers = tok :: rest ∧
        tokenDemoContext.backBuffers[0]? = some prev ∧
        tokenDemoAfterAcquire.acquireBuffers = rest ++ prev.acquireBuffer.toList ∧
        tokenDemoAfterAcquire.backBuffers[0]? =
          some { imageIndex := 0, acquireBuffer := some tok,
                 state := .bbAcquired }) ∧
    tokenDemoAfterPresent.acquireBuffers = tokenDemoAfterAcquire.acquireBuffers ∧
    borrowedTokens tokenDemoAfterPresent = borrowedTokens tokenDemoAfterAcquire :=
  acquire_back_buffer_token_conservation presentingSettings .success 0
    tokenDemoContext tokenDemoAfterAcquire tokenDemoAfterAcquire
    tokenDemoAfterPresent .success rfl rfl
